import Mathlib

/-!
Shallow embedding of the `MassMatrix3<T>` class of ign-math
(`include/ignition/math/MassMatrix3.hh`), instantiated at real scalars.
The out-of-scope collaborators (Vector2, Vector3, Matrix3, Quaternion,
Angle and the scalar helpers) are modelled from the specification's
interface description; every definition modelled that way carries a
doc comment saying so.
-/

open scoped Classical

noncomputable section

namespace IgnMath

/-- Modelled from the spec: the scalar tolerance-equality helper
(`math::equal`), true when the absolute difference is within epsilon. -/
def equalTol (a b eps : ℝ) : Prop := |a - b| ≤ eps

/-- Modelled from the spec: the clamping helper (`math::clamp`),
largest of the lower bound and the smallest of value and upper bound. -/
def clamp (v lo hi : ℝ) : ℝ := max (min v hi) lo

/-- Modelled from the spec: two-way ascending sort helper (`math::sort2`),
which swaps the pair when the second component is smaller. -/
def sort2 (a b : ℝ) : ℝ × ℝ := if b < a then (b, a) else (a, b)

/-- Modelled from the spec: three-way ascending sort helper (`math::sort3`):
`sort2` applied to (a,b), then (b,c), then (a,b) again. -/
def sort3 (a b c : ℝ) : ℝ × ℝ × ℝ :=
  let p1 := sort2 a b
  let p2 := sort2 p1.2 c
  let p3 := sort2 p1.1 p2.1
  (p3.1, p3.2, p2.2)

/-- Modelled from the spec: the four-quadrant arctangent (`std::atan2`). -/
def atan2 (y x : ℝ) : ℝ :=
  if 0 < x then Real.arctan (y / x)
  else if x < 0 then
    (if 0 ≤ y then Real.arctan (y / x) + Real.pi
     else Real.arctan (y / x) - Real.pi)
  else
    (if 0 < y then Real.pi / 2 else if y < 0 then -(Real.pi / 2) else 0)

/-- Modelled from the spec: `math::Angle` normalization into the
half-open range (-pi, pi] followed by the radian accessor. -/
def normalizeAngle (v : ℝ) : ℝ :=
  v - 2 * Real.pi * ((⌈(v - Real.pi) / (2 * Real.pi)⌉ : ℤ) : ℝ)

/-- Modelled from the spec: a generic 2-component vector. -/
structure Vector2 where
  x : ℝ
  y : ℝ

/-- Modelled from the spec: squared length of a 2-component vector. -/
def Vector2.SquaredLength (v : Vector2) : ℝ := v.x ^ 2 + v.y ^ 2

instance : Neg Vector2 := ⟨fun v => ⟨-v.x, -v.y⟩⟩

/-- Modelled from the spec: a generic 3-component vector. -/
structure Vector3 where
  x : ℝ
  y : ℝ
  z : ℝ

/-- Modelled from the spec: the zero 3-vector (`Vector3::Zero`). -/
def Vector3.zero : Vector3 := ⟨0, 0, 0⟩

/-- Modelled from the spec: sum of the components (`Vector3::Sum`). -/
def Vector3.Sum (v : Vector3) : ℝ := v.x + v.y + v.z

/-- Modelled from the spec: largest component (`Vector3::Max`). -/
def Vector3.Max (v : Vector3) : ℝ := max (max v.x v.y) v.z

/-- Modelled from the spec: componentwise equality within a tolerance
(`Vector3::Equal`). -/
def Vector3.Equal (a b : Vector3) (tol : ℝ) : Prop :=
  |a.x - b.x| ≤ tol ∧ |a.y - b.y| ≤ tol ∧ |a.z - b.z| ≤ tol

/-- Modelled from the spec: a 3x3 matrix with row-major entries. -/
structure Matrix3 where
  m00 : ℝ
  m01 : ℝ
  m02 : ℝ
  m10 : ℝ
  m11 : ℝ
  m12 : ℝ
  m20 : ℝ
  m21 : ℝ
  m22 : ℝ

/-- Modelled from the spec: determinant of a 3x3 matrix
(`Matrix3::Determinant`), by cofactor expansion along the first row. -/
def Matrix3.det (m : Matrix3) : ℝ :=
  m.m00 * (m.m11 * m.m22 - m.m12 * m.m21)
  - m.m01 * (m.m10 * m.m22 - m.m12 * m.m20)
  + m.m02 * (m.m10 * m.m21 - m.m11 * m.m20)

/-- Modelled from the spec: transpose of a 3x3 matrix. -/
def Matrix3.transpose (m : Matrix3) : Matrix3 :=
  ⟨m.m00, m.m10, m.m20, m.m01, m.m11, m.m21, m.m02, m.m12, m.m22⟩

/-- Modelled from the spec: 3x3 matrix product. -/
def Matrix3.mul (a b : Matrix3) : Matrix3 :=
  ⟨a.m00 * b.m00 + a.m01 * b.m10 + a.m02 * b.m20,
   a.m00 * b.m01 + a.m01 * b.m11 + a.m02 * b.m21,
   a.m00 * b.m02 + a.m01 * b.m12 + a.m02 * b.m22,
   a.m10 * b.m00 + a.m11 * b.m10 + a.m12 * b.m20,
   a.m10 * b.m01 + a.m11 * b.m11 + a.m12 * b.m21,
   a.m10 * b.m02 + a.m11 * b.m12 + a.m12 * b.m22,
   a.m20 * b.m00 + a.m21 * b.m10 + a.m22 * b.m20,
   a.m20 * b.m01 + a.m21 * b.m11 + a.m22 * b.m21,
   a.m20 * b.m02 + a.m21 * b.m12 + a.m22 * b.m22⟩

/-- Modelled from the spec: entrywise equality of 3x3 matrices within
a tolerance. -/
def Matrix3.EqualTol (a b : Matrix3) (tol : ℝ) : Prop :=
  |a.m00 - b.m00| ≤ tol ∧ |a.m01 - b.m01| ≤ tol ∧ |a.m02 - b.m02| ≤ tol ∧
  |a.m10 - b.m10| ≤ tol ∧ |a.m11 - b.m11| ≤ tol ∧ |a.m12 - b.m12| ≤ tol ∧
  |a.m20 - b.m20| ≤ tol ∧ |a.m21 - b.m21| ≤ tol ∧ |a.m22 - b.m22| ≤ tol

/-- Modelled from the spec: the diagonal matrix with a given diagonal. -/
def diagMatrix (v : Vector3) : Matrix3 :=
  ⟨v.x, 0, 0, 0, v.y, 0, 0, 0, v.z⟩

/-- Modelled from the spec: a quaternion with scalar part `w`. -/
structure Quaternion where
  w : ℝ
  x : ℝ
  y : ℝ
  z : ℝ

/-- Modelled from the spec: the default-constructed identity orientation
(`Quaternion<T>()`). -/
def Quaternion.identity : Quaternion := ⟨1, 0, 0, 0⟩

/-- Modelled from the spec: squared norm of a quaternion. -/
def Quaternion.normSq (q : Quaternion) : ℝ :=
  q.w ^ 2 + q.x ^ 2 + q.y ^ 2 + q.z ^ 2

/-- Modelled from the spec: quaternion constructed from three rotation
angles (roll, pitch, yaw), the three-angle constructor
`Quaternion<T>(roll, pitch, yaw)`. -/
def Quaternion.fromEuler (roll pitch yaw : ℝ) : Quaternion :=
  let phi := roll / 2
  let the := pitch / 2
  let psi := yaw / 2
  ⟨Real.cos phi * Real.cos the * Real.cos psi
     + Real.sin phi * Real.sin the * Real.sin psi,
   Real.sin phi * Real.cos the * Real.cos psi
     - Real.cos phi * Real.sin the * Real.sin psi,
   Real.cos phi * Real.sin the * Real.cos psi
     + Real.sin phi * Real.cos the * Real.sin psi,
   Real.cos phi * Real.cos the * Real.sin psi
     - Real.sin phi * Real.sin the * Real.cos psi⟩

/-- Modelled from the spec: quaternion inverse, conjugate divided by the
squared norm. -/
def Quaternion.inverse (q : Quaternion) : Quaternion :=
  let s := Quaternion.normSq q
  ⟨q.w / s, -q.x / s, -q.y / s, -q.z / s⟩

/-- Modelled from the spec: Hamilton product of quaternions. -/
def Quaternion.mul (a b : Quaternion) : Quaternion :=
  ⟨a.w * b.w - a.x * b.x - a.y * b.y - a.z * b.z,
   a.w * b.x + a.x * b.w + a.y * b.z - a.z * b.y,
   a.w * b.y - a.x * b.z + a.y * b.w + a.z * b.x,
   a.w * b.z + a.x * b.y - a.y * b.x + a.z * b.w⟩

instance : Mul Quaternion := ⟨Quaternion.mul⟩

/-- Modelled from the spec: the rotation matrix of a (unit) quaternion. -/
def Quaternion.rotMatrix (q : Quaternion) : Matrix3 :=
  ⟨1 - 2 * (q.y ^ 2 + q.z ^ 2), 2 * (q.x * q.y - q.w * q.z),
     2 * (q.x * q.z + q.w * q.y),
   2 * (q.x * q.y + q.w * q.z), 1 - 2 * (q.x ^ 2 + q.z ^ 2),
     2 * (q.y * q.z - q.w * q.x),
   2 * (q.x * q.z - q.w * q.y), 2 * (q.y * q.z + q.w * q.x),
     1 - 2 * (q.x ^ 2 + q.y ^ 2)⟩

/-- State of `MassMatrix3<T>`: scalar mass, the diagonal moments
(Ixx, Iyy, Izz) and the off-diagonal moments (Ixy, Ixz, Iyz). -/
structure MassMatrix3 where
  mass : ℝ
  Ixxyyzz : Vector3
  Ixyxzyz : Vector3

/-- Getter `Mass()`. -/
def Mass (s : MassMatrix3) : ℝ := s.mass

/-- Getter `DiagonalMoments()`. -/
def DiagonalMoments (s : MassMatrix3) : Vector3 := s.Ixxyyzz

/-- Getter `OffDiagonalMoments()`. -/
def OffDiagonalMoments (s : MassMatrix3) : Vector3 := s.Ixyxzyz

/-- Getter `IXX()`. -/
def IXX (s : MassMatrix3) : ℝ := s.Ixxyyzz.x

/-- Getter `IYY()`. -/
def IYY (s : MassMatrix3) : ℝ := s.Ixxyyzz.y

/-- Getter `IZZ()`. -/
def IZZ (s : MassMatrix3) : ℝ := s.Ixxyyzz.z

/-- Getter `IXY()`. -/
def IXY (s : MassMatrix3) : ℝ := s.Ixyxzyz.x

/-- Getter `IXZ()`. -/
def IXZ (s : MassMatrix3) : ℝ := s.Ixyxzyz.y

/-- Getter `IYZ()`. -/
def IYZ (s : MassMatrix3) : ℝ := s.Ixyxzyz.z

/-- Getter `MOI()`: the symmetric moment-of-inertia matrix assembled
from the two stored vectors. -/
def MOI (s : MassMatrix3) : Matrix3 :=
  ⟨s.Ixxyyzz.x, s.Ixyxzyz.x, s.Ixyxzyz.y,
   s.Ixyxzyz.x, s.Ixxyyzz.y, s.Ixyxzyz.z,
   s.Ixyxzyz.y, s.Ixyxzyz.z, s.Ixxyyzz.z⟩

/-- The scaled tolerance computed at the top of `PrincipalMoments` and
`PrincipalAxesOffset`: the relative tolerance times the largest diagonal
moment. -/
def scaledTol (s : MassMatrix3) (t : ℝ) : ℝ := t * s.Ixxyyzz.Max

/-- Square root of positive numbers, otherwise zero
(`MassMatrix3::ClampedSqrt`). -/
def ClampedSqrt (x : ℝ) : ℝ := if x ≤ 0 then 0 else Real.sqrt x

/-- Angle formed by the direction of a Vector2 (`MassMatrix3::Angle2`),
zero when the squared length is below the default tolerance 1e-12. -/
def Angle2 (v : Vector2) : ℝ :=
  if v.SquaredLength < 1e-12 then 0 else atan2 v.y v.x

/-- The closed-form eigenvalue computation shared by the non-diagonal
path of `PrincipalMoments`, parameterized by the cubic coefficients
b, c, d and the scaled tolerance, exactly as the source writes it. -/
def cubicRoots (b c d tol : ℝ) : Vector3 :=
  let p := b ^ 2 - 3 * c
  if p < tol ^ 2 then ⟨b / 3, b / 3, b / 3⟩
  else
    let q := 2 * b ^ 3 - 9 * b * c - 27 * d
    let delta := Real.arccos (clamp (0.5 * q / (p * Real.sqrt p)) (-1) 1)
    let moment0 := (b + 2 * Real.sqrt p * Real.cos (delta / 3)) / 3
    let moment1 := (b + 2 * Real.sqrt p * Real.cos ((delta + 2 * Real.pi) / 3)) / 3
    let moment2 := (b + 2 * Real.sqrt p * Real.cos ((delta - 2 * Real.pi) / 3)) / 3
    let r := sort3 moment0 moment1 moment2
    ⟨r.1, r.2.1, r.2.2⟩

/-- `MassMatrix3::PrincipalMoments(tol)`: eigenvalues of the moment of
inertia matrix; the stored diagonal verbatim when the matrix is already
diagonal within the scaled tolerance, otherwise the closed-form cubic
roots sorted ascending. -/
def PrincipalMoments (s : MassMatrix3) (_tol : ℝ) : Vector3 :=
  let tol := scaledTol s _tol
  if Vector3.Equal s.Ixyxzyz Vector3.zero tol then s.Ixxyyzz
  else
    let Id := s.Ixxyyzz
    let Ip := s.Ixyxzyz
    let b := Id.Sum
    let c := Id.x * Id.y - Ip.x ^ 2 + Id.x * Id.z - Ip.y ^ 2
           + Id.y * Id.z - Ip.z ^ 2
    let d := Id.x * Ip.z ^ 2 + Id.y * Ip.y ^ 2 + Id.z * Ip.x ^ 2
           - Id.x * Id.y * Id.z - 2 * Ip.x * Ip.y * Ip.z
    cubicRoots b c d tol

/-- `IsPositive()`: positive mass and positive-definite moment of
inertia matrix via the three leading principal minors. -/
def IsPositive (s : MassMatrix3) : Prop :=
  0 < s.mass ∧ 0 < IXX s ∧ 0 < IXX s * IYY s - IXY s ^ 2 ∧
  0 < Matrix3.det (MOI s)

/-- Static `ValidMoments(moments)`: all positive and each pair's sum
exceeds the third. -/
def ValidMoments (m : Vector3) : Prop :=
  m.x > 0 ∧ m.y > 0 ∧ m.z > 0 ∧
  m.x + m.y > m.z ∧ m.y + m.z > m.x ∧ m.z + m.x > m.y

/-- `IsValid()`: `IsPositive()` and `ValidMoments` of the principal
moments computed at the default tolerance 1e-6. -/
def IsValid (s : MassMatrix3) : Prop :=
  IsPositive s ∧ ValidMoments (PrincipalMoments s 1e-6)

/-- Setter `Mass(m)`: stores the mass and returns `IsValid()` of the
post-mutation state. -/
def MassSet (s : MassMatrix3) (v : ℝ) : MassMatrix3 × Prop :=
  let s' : MassMatrix3 := ⟨v, s.Ixxyyzz, s.Ixyxzyz⟩
  (s', IsValid s')

/-- Setter `IXX(v)`. -/
def IXXSet (s : MassMatrix3) (v : ℝ) : MassMatrix3 × Prop :=
  let s' : MassMatrix3 := ⟨s.mass, ⟨v, s.Ixxyyzz.y, s.Ixxyyzz.z⟩, s.Ixyxzyz⟩
  (s', IsValid s')

/-- Setter `IYY(v)`. -/
def IYYSet (s : MassMatrix3) (v : ℝ) : MassMatrix3 × Prop :=
  let s' : MassMatrix3 := ⟨s.mass, ⟨s.Ixxyyzz.x, v, s.Ixxyyzz.z⟩, s.Ixyxzyz⟩
  (s', IsValid s')

/-- Setter `IZZ(v)`. -/
def IZZSet (s : MassMatrix3) (v : ℝ) : MassMatrix3 × Prop :=
  let s' : MassMatrix3 := ⟨s.mass, ⟨s.Ixxyyzz.x, s.Ixxyyzz.y, v⟩, s.Ixyxzyz⟩
  (s', IsValid s')

/-- Setter `IXY(v)`. -/
def IXYSet (s : MassMatrix3) (v : ℝ) : MassMatrix3 × Prop :=
  let s' : MassMatrix3 := ⟨s.mass, s.Ixxyyzz, ⟨v, s.Ixyxzyz.y, s.Ixyxzyz.z⟩⟩
  (s', IsValid s')

/-- Setter `IXZ(v)`. -/
def IXZSet (s : MassMatrix3) (v : ℝ) : MassMatrix3 × Prop :=
  let s' : MassMatrix3 := ⟨s.mass, s.Ixxyyzz, ⟨s.Ixyxzyz.x, v, s.Ixyxzyz.z⟩⟩
  (s', IsValid s')

/-- Setter `IYZ(v)`. -/
def IYZSet (s : MassMatrix3) (v : ℝ) : MassMatrix3 × Prop :=
  let s' : MassMatrix3 := ⟨s.mass, s.Ixxyyzz, ⟨s.Ixyxzyz.x, s.Ixyxzyz.y, v⟩⟩
  (s', IsValid s')

/-- Setter `DiagonalMoments(v)`. -/
def DiagonalMomentsSet (s : MassMatrix3) (v : Vector3) : MassMatrix3 × Prop :=
  let s' : MassMatrix3 := ⟨s.mass, v, s.Ixyxzyz⟩
  (s', IsValid s')

/-- Setter `OffDiagonalMoments(v)`. -/
def OffDiagonalMomentsSet (s : MassMatrix3) (v : Vector3) :
    MassMatrix3 × Prop :=
  let s' : MassMatrix3 := ⟨s.mass, s.Ixxyyzz, v⟩
  (s', IsValid s')

/-- Setter `InertiaMatrix(ixx, iyy, izz, ixy, ixz, iyz)`. -/
def InertiaMatrixSet (s : MassMatrix3) (ixx iyy izz ixy ixz iyz : ℝ) :
    MassMatrix3 × Prop :=
  let s' : MassMatrix3 := ⟨s.mass, ⟨ixx, iyy, izz⟩, ⟨ixy, ixz, iyz⟩⟩
  (s', IsValid s')

/-- Setter `MOI(matrix)`: stores the diagonal verbatim and symmetrizes
the off-diagonal pairs by averaging. -/
def MOISet (s : MassMatrix3) (m : Matrix3) : MassMatrix3 × Prop :=
  let s' : MassMatrix3 :=
    ⟨s.mass, ⟨m.m00, m.m11, m.m22⟩,
     ⟨0.5 * (m.m01 + m.m10), 0.5 * (m.m02 + m.m20), 0.5 * (m.m12 + m.m21)⟩⟩
  (s', IsValid s')

/-- `operator==`: mass tolerance-equal at the default tolerance 1e-6
and both moment vectors exactly equal. -/
def eqOp (a b : MassMatrix3) : Prop :=
  equalTol a.mass b.mass 1e-6 ∧ a.Ixxyyzz = b.Ixxyyzz ∧ a.Ixyxzyz = b.Ixyxzyz

/-- `operator!=`: negation of `operator==`. -/
def neqOp (a b : MassMatrix3) : Prop := ¬ eqOp a b

/-- The auxiliary 2-vector `f1` of `PrincipalAxesOffset` (eq 5.5). -/
def f1 (s : MassMatrix3) : Vector2 := ⟨s.Ixyxzyz.x, -s.Ixyxzyz.y⟩

/-- The auxiliary 2-vector `f2` of `PrincipalAxesOffset` (eq 5.6). -/
def f2 (s : MassMatrix3) : Vector2 :=
  ⟨s.Ixxyyzz.y - s.Ixxyyzz.z, -2 * s.Ixyxzyz.z⟩

/-- The principal moments used inside `PrincipalAxesOffset`: the source
calls `this->PrincipalMoments()` with its default tolerance 1e-6,
ignoring the `_tol` argument of `PrincipalAxesOffset`. -/
def PrincipalAxesOffsetMoments (s : MassMatrix3) (_t : ℝ) : Vector3 :=
  PrincipalMoments s 1e-6

/-- The already-aligned test at the top of `PrincipalAxesOffset`:
the principal moments equal the stored diagonal within the scaled
tolerance. -/
def alignedCond (s : MassMatrix3) (t : ℝ) : Prop :=
  Vector3.Equal (PrincipalAxesOffsetMoments s t) s.Ixxyyzz (scaledTol s t)

/-- The repeated-moment branch's `moments[unequalMoment]` read. -/
def repeatedMu (moments : Vector3) (uneq : ℤ) : ℝ :=
  if uneq = 0 then moments.x
  else if uneq = 1 then moments.y else moments.z

/-- The local `s = cos(phi2)^2 = (A11 - lambda3) / (lambda - lambda3)`
of the repeated-moment branch. -/
def repeatedS (s : MassMatrix3) (moments : Vector3) (uneq : ℤ) : ℝ :=
  (s.Ixxyyzz.x - repeatedMu moments uneq)
    / (moments.y - repeatedMu moments uneq)

/-- The positive candidate `phi2 = acos(clamp(sqrt(s)))` of the
repeated-moment branch. -/
def repeatedPhi2Mag (s : MassMatrix3) (moments : Vector3) (uneq : ℤ) : ℝ :=
  Real.arccos (clamp (ClampedSqrt (repeatedS s moments uneq)) (-1) 1)

/-- The local `g1` of the repeated-moment branch (eq 5.24). -/
def repeatedG1 (s : MassMatrix3) (moments : Vector3) (uneq : ℤ) : Vector2 :=
  ⟨0, 0.5 * (moments.y - repeatedMu moments uneq)
    * Real.sin (2 * repeatedPhi2Mag s moments uneq)⟩

/-- The local `g2` of the repeated-moment branch (eq 5.25). -/
def repeatedG2 (s : MassMatrix3) (moments : Vector3) (uneq : ℤ) : Vector2 :=
  ⟨(moments.y - repeatedMu moments uneq) * repeatedS s moments uneq, 0⟩

/-- The local `phi1` of the repeated-moment branch, the normalized
`phi12`. -/
def repeatedPhi1 (s : MassMatrix3) (moments : Vector3) (uneq : ℤ) : ℝ :=
  normalizeAngle (0.5 * (Angle2 (repeatedG2 s moments uneq) - Angle2 (f2 s)))

/-- The signed `phi2` of the repeated-moment branch: kept positive when
f1 is small, otherwise the sign is chosen by the sine/cosine residual
comparison of `phi11a` and `phi11b` against `phi1`. -/
def repeatedPhi2 (s : MassMatrix3) (moments : Vector3) (tol : ℝ)
    (uneq : ℤ) : ℝ :=
  if (f1 s).SquaredLength < tol ^ 2 then repeatedPhi2Mag s moments uneq
  else
    let phi11a := normalizeAngle
      (Angle2 (repeatedG1 s moments uneq) - Angle2 (f1 s))
    let phi11b := normalizeAngle
      (Angle2 (-(repeatedG1 s moments uneq)) - Angle2 (f1 s))
    let erra := (Real.sin (repeatedPhi1 s moments uneq) - Real.sin phi11a) ^ 2
              + (Real.cos (repeatedPhi1 s moments uneq) - Real.cos phi11a) ^ 2
    let errb := (Real.sin (repeatedPhi1 s moments uneq) - Real.sin phi11b) ^ 2
              + (Real.cos (repeatedPhi1 s moments uneq) - Real.cos phi11b) ^ 2
    if errb < erra then -(repeatedPhi2Mag s moments uneq)
    else repeatedPhi2Mag s moments uneq

/-- The repeated-moment branch of `PrincipalAxesOffset`
(`unequalMoment` equal to 0 or 2): phi3 is fixed at zero, the result is
built from `(-phi1, -phi2, -phi3)` and inverted, and when the unequal
moment is the smallest a 90-degree pitch is composed on the right. -/
def pao_repeated (s : MassMatrix3) (moments : Vector3) (tol : ℝ)
    (uneq : ℤ) : Quaternion :=
  let result := (Quaternion.fromEuler (-(repeatedPhi1 s moments uneq))
    (-(repeatedPhi2 s moments tol uneq)) (-(0 : ℝ))).inverse
  if uneq = 0 then result * Quaternion.fromEuler 0 (Real.pi / 2) 0
  else result

/-- The auxiliary ratio `v` of the no-repeated-moments branch. -/
def generalV (s : MassMatrix3) (moments : Vector3) : ℝ :=
  (s.Ixyxzyz.x ^ 2 + s.Ixyxzyz.y ^ 2
    + (s.Ixxyyzz.x - moments.z)
      * (s.Ixxyyzz.x + moments.z - moments.x - moments.y))
  / ((moments.y - moments.z) * (moments.z - moments.x))

/-- The auxiliary ratio `w` of the no-repeated-moments branch. -/
def generalW (s : MassMatrix3) (moments : Vector3) : ℝ :=
  (s.Ixxyyzz.x - moments.z + (moments.z - moments.y) * generalV s moments)
  / ((moments.x - moments.y) * generalV s moments)

/-- `phi2 = acos(clamp(sqrt(v)))` of the no-repeated-moments branch. -/
def generalPhi2 (s : MassMatrix3) (moments : Vector3) : ℝ :=
  Real.arccos (clamp (ClampedSqrt (generalV s moments)) (-1) 1)

/-- `phi3 = acos(clamp(sqrt(w)))` of the no-repeated-moments branch. -/
def generalPhi3 (s : MassMatrix3) (moments : Vector3) : ℝ :=
  Real.arccos (clamp (ClampedSqrt (generalW s moments)) (-1) 1)

/-- The local `g1` of the no-repeated-moments branch (eq 5.7). -/
def generalG1 (s : MassMatrix3) (moments : Vector3) : Vector2 :=
  ⟨0.5 * (moments.x - moments.y) * ClampedSqrt (generalV s moments)
     * Real.sin (2 * generalPhi3 s moments),
   0.5 * ((moments.x - moments.y) * generalW s moments
       + moments.y - moments.z)
     * Real.sin (2 * generalPhi2 s moments)⟩

/-- The local `g2` of the no-repeated-moments branch (eq 5.8). -/
def generalG2 (s : MassMatrix3) (moments : Vector3) : Vector2 :=
  ⟨(moments.x - moments.y)
      * (1 + (generalV s moments - 2) * generalW s moments)
    + (moments.y - moments.z) * generalV s moments,
   (moments.x - moments.y) * Real.sin (generalPhi2 s moments)
     * Real.sin (2 * generalPhi3 s moments)⟩

/-- `phi1` when only f1 is small: the normalized `phi12`. -/
def generalPhi1f1 (s : MassMatrix3) (moments : Vector3) : ℝ :=
  normalizeAngle (0.5 * (Angle2 (generalG2 s moments) - Angle2 (f2 s)))

/-- `phi1` when only f2 is small: the normalized `phi11`. -/
def generalPhi1f2 (s : MassMatrix3) (moments : Vector3) : ℝ :=
  normalizeAngle (Angle2 (generalG1 s moments) - Angle2 (f1 s))

/-- The sign search of the no-repeated-moments branch: evaluates the
sine/cosine residual between `phi11` and `phi12` for the four sign
combinations of (phi2, phi3) and returns the winning
(phi1, sign of phi2, sign of phi3). -/
def generalSearch (s : MassMatrix3) (moments : Vector3) : ℝ × ℝ × ℝ :=
  let phi11 := normalizeAngle (Angle2 (generalG1 s moments) - Angle2 (f1 s))
  let phi12 := normalizeAngle
    (0.5 * (Angle2 (generalG2 s moments) - Angle2 (f2 s)))
  let err0 := (Real.sin phi11 - Real.sin phi12) ^ 2
            + (Real.cos phi11 - Real.cos phi12) ^ 2
  let phi11a := normalizeAngle (Angle2
    ⟨(generalG1 s moments).x, -(generalG1 s moments).y⟩ - Angle2 (f1 s))
  let phi12a := normalizeAngle (0.5 * (Angle2
    ⟨(generalG2 s moments).x, -(generalG2 s moments).y⟩ - Angle2 (f2 s)))
  let erra := (Real.sin phi11a - Real.sin phi12a) ^ 2
            + (Real.cos phi11a - Real.cos phi12a) ^ 2
  let st1 : ℝ × ℝ × ℝ × ℝ :=
    if erra < err0 then (erra, phi11a, -1, 1) else (err0, phi11, 1, 1)
  let phi11b := normalizeAngle (Angle2
    ⟨-(generalG1 s moments).x, (generalG1 s moments).y⟩ - Angle2 (f1 s))
  let phi12b := normalizeAngle (0.5 * (Angle2
    ⟨(generalG2 s moments).x, -(generalG2 s moments).y⟩ - Angle2 (f2 s)))
  let errb := (Real.sin phi11b - Real.sin phi12b) ^ 2
            + (Real.cos phi11b - Real.cos phi12b) ^ 2
  let st2 := if errb < st1.1 then (errb, phi11b, 1, -1) else st1
  let phi11c := normalizeAngle (Angle2
    ⟨-(generalG1 s moments).x, -(generalG1 s moments).y⟩ - Angle2 (f1 s))
  let phi12c := normalizeAngle
    (0.5 * (Angle2 (generalG2 s moments) - Angle2 (f2 s)))
  let errc := (Real.sin phi11c - Real.sin phi12c) ^ 2
            + (Real.cos phi11c - Real.cos phi12c) ^ 2
  let st3 := if errc < st2.1 then (errc, phi11c, -1, -1) else st2
  (st3.2.1, st3.2.2.1, st3.2.2.2)

/-- The no-repeated-moments branch of `PrincipalAxesOffset`: the zero
quaternion sentinel when both f1 and f2 are small, otherwise a
quaternion built from `(-phi1, -phi2, -phi3)` and inverted, with phi1
and the signs of phi2 and phi3 chosen by the applicable sub-branch. -/
def pao_general (s : MassMatrix3) (moments : Vector3) (tol : ℝ) :
    Quaternion :=
  if (f1 s).SquaredLength < tol ^ 2 ∧ (f2 s).SquaredLength < tol ^ 2 then
    ⟨0, 0, 0, 0⟩
  else if (f1 s).SquaredLength < tol ^ 2 then
    (Quaternion.fromEuler (-(generalPhi1f1 s moments))
      (-(generalPhi2 s moments)) (-(generalPhi3 s moments))).inverse
  else if (f2 s).SquaredLength < tol ^ 2 then
    (Quaternion.fromEuler (-(generalPhi1f2 s moments))
      (-(generalPhi2 s moments)) (-(generalPhi3 s moments))).inverse
  else
    (Quaternion.fromEuler (-((generalSearch s moments).1))
      (-((generalSearch s moments).2.1 * generalPhi2 s moments))
      (-((generalSearch s moments).2.2 * generalPhi3 s moments))).inverse

/-- `MassMatrix3::PrincipalAxesOffset(tol)`: the orientation rotating
the body frame onto the principal axes. -/
def PrincipalAxesOffset (s : MassMatrix3) (t : ℝ) : Quaternion :=
  let tol := scaledTol s t
  let moments := PrincipalAxesOffsetMoments s t
  if alignedCond s t then Quaternion.identity
  else
    let uneq : ℤ :=
      if equalTol (moments.x - moments.y) 0 tol then 2
      else if equalTol (moments.y - moments.z) 0 tol then 0
      else -1
    if 0 ≤ uneq then pao_repeated s moments tol uneq
    else pao_general s moments tol

/-- The degenerate-configuration condition of the no-repeated-moments
branch: not aligned, no repeated moment detected, and both auxiliary
2-vectors have squared length below the squared scaled tolerance. -/
def sentinelCond (s : MassMatrix3) (t : ℝ) : Prop :=
  ¬ alignedCond s t ∧
  ¬ equalTol ((PrincipalAxesOffsetMoments s t).x
      - (PrincipalAxesOffsetMoments s t).y) 0 (scaledTol s t) ∧
  ¬ equalTol ((PrincipalAxesOffsetMoments s t).y
      - (PrincipalAxesOffsetMoments s t).z) 0 (scaledTol s t) ∧
  (f1 s).SquaredLength < scaledTol s t ^ 2 ∧
  (f2 s).SquaredLength < scaledTol s t ^ 2

/-- Follows the claim wording of C4: roots
(b + 2*sqrt(p)*cos((delta + k*2*pi)/3))/3 for k = 0, 1, -1 with
delta = acos of the clamped argument q/(2*p^1.5), sorted ascending,
and the (b/3, b/3, b/3) early return when p is below the squared
scaled tolerance; b, c, d are parameters so that both the claim's
choice of d (the determinant) and the amended choice (its negation)
can be plugged in. -/
def cubicRootsSpec (b c d tol : ℝ) : Vector3 :=
  let p := b ^ 2 - 3 * c
  if p < tol ^ 2 then ⟨b / 3, b / 3, b / 3⟩
  else
    let q := 2 * b ^ 3 - 9 * b * c - 27 * d
    let delta := Real.arccos (clamp (q / (2 * (p * Real.sqrt p))) (-1) 1)
    let r0 := (b + 2 * Real.sqrt p
      * Real.cos ((delta + 0 * (2 * Real.pi)) / 3)) / 3
    let r1 := (b + 2 * Real.sqrt p
      * Real.cos ((delta + 1 * (2 * Real.pi)) / 3)) / 3
    let r2 := (b + 2 * Real.sqrt p
      * Real.cos ((delta + (-1) * (2 * Real.pi)) / 3)) / 3
    let r := sort3 r0 r1 r2
    ⟨r.1, r.2.1, r.2.2⟩

/-- The trace of the moment-of-inertia matrix, the claim's `b`. -/
def traceMOI (s : MassMatrix3) : ℝ :=
  (MOI s).m00 + (MOI s).m11 + (MOI s).m22

/-- Sum of the three 2x2 principal minors of the moment-of-inertia
matrix, the claim's `c`. -/
def minorsMOI (s : MassMatrix3) : ℝ :=
  ((MOI s).m00 * (MOI s).m11 - (MOI s).m01 * (MOI s).m10)
  + ((MOI s).m00 * (MOI s).m22 - (MOI s).m02 * (MOI s).m20)
  + ((MOI s).m11 * (MOI s).m22 - (MOI s).m12 * (MOI s).m21)

/-- The non-diagonal path of `PrincipalMoments` as claim C4 states it,
with d taken to be det(MOI()). -/
def PrincipalMomentsClaimC4 (s : MassMatrix3) (t : ℝ) : Vector3 :=
  cubicRootsSpec (traceMOI s) (minorsMOI s) (Matrix3.det (MOI s))
    (scaledTol s t)

/-- The non-diagonal path of `PrincipalMoments` as claim C4 states it,
amended so that d is the negation of det(MOI()). -/
def PrincipalMomentsAmendedC4 (s : MassMatrix3) (t : ℝ) : Vector3 :=
  cubicRootsSpec (traceMOI s) (minorsMOI s) (-(Matrix3.det (MOI s)))
    (scaledTol s t)

/-! ## Helper lemmas -/

theorem pm_diag (s : MassMatrix3) (t : ℝ)
    (h : Vector3.Equal s.Ixyxzyz Vector3.zero (scaledTol s t)) :
    PrincipalMoments s t = s.Ixxyyzz := by
  simp only [PrincipalMoments]
  rw [if_pos h]

theorem pm_noDiag (s : MassMatrix3) (t : ℝ)
    (h : ¬ Vector3.Equal s.Ixyxzyz Vector3.zero (scaledTol s t)) :
    PrincipalMoments s t =
      cubicRoots s.Ixxyyzz.Sum
        (s.Ixxyyzz.x * s.Ixxyyzz.y - s.Ixyxzyz.x ^ 2
          + s.Ixxyyzz.x * s.Ixxyyzz.z - s.Ixyxzyz.y ^ 2
          + s.Ixxyyzz.y * s.Ixxyyzz.z - s.Ixyxzyz.z ^ 2)
        (s.Ixxyyzz.x * s.Ixyxzyz.z ^ 2 + s.Ixxyyzz.y * s.Ixyxzyz.y ^ 2
          + s.Ixxyyzz.z * s.Ixyxzyz.x ^ 2
          - s.Ixxyyzz.x * s.Ixxyyzz.y * s.Ixxyyzz.z
          - 2 * s.Ixyxzyz.x * s.Ixyxzyz.y * s.Ixyxzyz.z)
        (scaledTol s t) := by
  simp only [PrincipalMoments]
  rw [if_neg h]

theorem sort3_sorted (a b c : ℝ) :
    (sort3 a b c).1 ≤ (sort3 a b c).2.1 ∧
    (sort3 a b c).2.1 ≤ (sort3 a b c).2.2 := by
  simp only [sort3, sort2]
  by_cases h1 : b < a
  · rw [if_pos h1]; dsimp only
    by_cases h2 : c < a
    · rw [if_pos h2]; dsimp only
      by_cases h3 : c < b
      · rw [if_pos h3]; dsimp only; exact ⟨h3.le, h1.le⟩
      · rw [if_neg h3]; dsimp only; exact ⟨not_lt.mp h3, h2.le⟩
    · rw [if_neg h2]; dsimp only
      rw [if_neg (lt_asymm h1)]; dsimp only
      exact ⟨h1.le, not_lt.mp h2⟩
  · rw [if_neg h1]; dsimp only
    by_cases h2 : c < b
    · rw [if_pos h2]; dsimp only
      by_cases h3 : c < a
      · rw [if_pos h3]; dsimp only; exact ⟨h3.le, not_lt.mp h1⟩
      · rw [if_neg h3]; dsimp only; exact ⟨not_lt.mp h3, h2.le⟩
    · rw [if_neg h2]; dsimp only
      rw [if_neg h1]; dsimp only
      exact ⟨not_lt.mp h1, not_lt.mp h2⟩

theorem cubicRoots_sorted (b c d tol : ℝ) :
    (cubicRoots b c d tol).x ≤ (cubicRoots b c d tol).y ∧
    (cubicRoots b c d tol).y ≤ (cubicRoots b c d tol).z := by
  simp only [cubicRoots]
  split_ifs
  · exact ⟨le_refl _, le_refl _⟩
  · dsimp only
    exact sort3_sorted _ _ _

theorem cubicRootsSpec_eq (b c d tol : ℝ) :
    cubicRootsSpec b c d tol = cubicRoots b c d tol := by
  simp only [cubicRootsSpec, cubicRoots]
  split_ifs with hp
  · rfl
  · have h1 : ∀ q y : ℝ, q / (2 * y) = 0.5 * q / y := fun q y => by ring
    rw [h1]
    have h2 : ∀ dl : ℝ, (dl + 0 * (2 * Real.pi)) / 3 = dl / 3 :=
      fun dl => by ring
    have h3 : ∀ dl : ℝ, (dl + 1 * (2 * Real.pi)) / 3 = (dl + 2 * Real.pi) / 3 :=
      fun dl => by ring
    have h4 : ∀ dl : ℝ,
        (dl + (-1) * (2 * Real.pi)) / 3 = (dl - 2 * Real.pi) / 3 :=
      fun dl => by ring
    rw [h2, h3, h4]

theorem cubicRoots_eval_neg :
    cubicRoots (-6 : ℝ) 11 6 (-(1e-6)) = ⟨-3, -2, -1⟩ := by
  simp only [cubicRoots]
  rw [if_neg (by norm_num)]
  rw [show ((-6:ℝ)^2 - 3*11) = 3 by norm_num]
  rw [show (2*(-6:ℝ)^3 - 9*(-6)*11 - 27*6) = 0 by norm_num]
  rw [show (0.5 * (0:ℝ) / (3 * Real.sqrt 3)) = 0 by norm_num]
  rw [show clamp (0:ℝ) (-1) 1 = 0 by norm_num [clamp, max_def, min_def]]
  rw [Real.arccos_zero]
  rw [show (Real.pi/2)/3 = Real.pi/6 by ring]
  rw [show (Real.pi/2 + 2*Real.pi)/3 = Real.pi - Real.pi/6 by ring]
  rw [show (Real.pi/2 - 2*Real.pi)/3 = -(Real.pi/2) by ring]
  rw [Real.cos_pi_sub, Real.cos_pi_div_six, Real.cos_neg, Real.cos_pi_div_two]
  have hs3 : Real.sqrt 3 * Real.sqrt 3 = 3 := Real.mul_self_sqrt (by norm_num)
  rw [show ((-6:ℝ) + 2*Real.sqrt 3*(Real.sqrt 3/2))/3 = -1 by
    linear_combination hs3/3]
  rw [show ((-6:ℝ) + 2*Real.sqrt 3*(-(Real.sqrt 3/2)))/3 = -3 by
    linear_combination -hs3/3]
  rw [show ((-6:ℝ) + 2*Real.sqrt 3*0)/3 = -2 by norm_num]
  norm_num [sort3, sort2, Vector3.mk.injEq]

theorem cubicRootsSpec_eval_neg :
    cubicRootsSpec (-6 : ℝ) 11 (-6) (-(1e-6)) =
      ⟨(-6 - Real.sqrt 3)/3, (-6 - Real.sqrt 3)/3,
       (-6 + 2*Real.sqrt 3)/3⟩ := by
  simp only [cubicRootsSpec]
  rw [if_neg (by norm_num)]
  rw [show ((-6:ℝ)^2 - 3*11) = 3 by norm_num]
  rw [show (2*(-6:ℝ)^3 - 9*(-6)*11 - 27*(-6)) = 324 by norm_num]
  have h1le : (1:ℝ) ≤ 324/(2*(3*Real.sqrt 3)) := by
    rw [le_div_iff₀ (by positivity)]
    have h2 : Real.sqrt 3 ≤ 2 := by
      nlinarith [Real.sq_sqrt (show (0:ℝ) ≤ 3 by norm_num),
        Real.sqrt_nonneg 3]
    nlinarith [h2]
  rw [show clamp ((324:ℝ)/(2*(3*Real.sqrt 3))) (-1) 1 = 1 from by
    unfold clamp; rw [min_eq_right h1le, max_eq_left (by norm_num)]]
  rw [Real.arccos_one]
  rw [show ((0:ℝ) + 0*(2*Real.pi))/3 = 0 by ring]
  rw [show ((0:ℝ) + 1*(2*Real.pi))/3 = Real.pi - Real.pi/3 by ring]
  rw [show ((0:ℝ) + (-1)*(2*Real.pi))/3 = -(Real.pi - Real.pi/3) by ring]
  rw [Real.cos_zero, Real.cos_neg, Real.cos_pi_sub, Real.cos_pi_div_three]
  rw [show ((-6:ℝ) + 2*Real.sqrt 3*1)/3 = (-6 + 2*Real.sqrt 3)/3 by ring]
  rw [show ((-6:ℝ) + 2*Real.sqrt 3*(-(1/2)))/3 = (-6 - Real.sqrt 3)/3 by ring]
  have hlt : ((-6:ℝ) - Real.sqrt 3)/3 < ((-6:ℝ) + 2*Real.sqrt 3)/3 := by
    have := Real.sqrt_pos.mpr (show (0:ℝ) < 3 by norm_num)
    linarith
  have e1 : sort2 ((-6 + 2*Real.sqrt 3)/3) ((-6 - Real.sqrt 3)/3)
      = ((-6 - Real.sqrt 3)/3, (-6 + 2*Real.sqrt 3)/3) := by
    unfold sort2; rw [if_pos hlt]
  have e2 : sort2 ((-6 - Real.sqrt 3)/3) ((-6 - Real.sqrt 3)/3)
      = ((-6 - Real.sqrt 3)/3, (-6 - Real.sqrt 3)/3) := by
    unfold sort2; rw [if_neg (lt_irrefl _)]
  simp only [sort3]
  rw [e1]
  dsimp only
  rw [e1]
  dsimp only
  rw [e2]

/-! ## Claim theorems -/

/-- C3: for every state whose off-diagonal moments are all within
scaledTol = tol * max(diagonal) of zero, `PrincipalMoments(tol)` returns
the stored diagonal vector verbatim, preserving its component order. -/
theorem C3_diag_verbatim (s : MassMatrix3) (t : ℝ)
    (h : Vector3.Equal s.Ixyxzyz Vector3.zero (scaledTol s t)) :
    PrincipalMoments s t = s.Ixxyyzz := by
  simp only [PrincipalMoments]
  rw [if_pos h]

/-- Witness for C3 at mass 1, diagonal (3, 1, 2), zero off-diagonal. -/
theorem C3_diag_verbatim_witness :
    Vector3.Equal (⟨1, ⟨3, 1, 2⟩, ⟨0, 0, 0⟩⟩ : MassMatrix3).Ixyxzyz
      Vector3.zero (scaledTol ⟨1, ⟨3, 1, 2⟩, ⟨0, 0, 0⟩⟩ 1e-6) ∧
    PrincipalMoments ⟨1, ⟨3, 1, 2⟩, ⟨0, 0, 0⟩⟩ 1e-6 =
      (⟨1, ⟨3, 1, 2⟩, ⟨0, 0, 0⟩⟩ : MassMatrix3).Ixxyyzz := by
  have h : Vector3.Equal (⟨1, ⟨3, 1, 2⟩, ⟨0, 0, 0⟩⟩ : MassMatrix3).Ixyxzyz
      Vector3.zero (scaledTol ⟨1, ⟨3, 1, 2⟩, ⟨0, 0, 0⟩⟩ 1e-6) := by
    norm_num [Vector3.Equal, Vector3.zero, scaledTol, Vector3.Max, max_def]
  exact ⟨h, C3_diag_verbatim _ _ h⟩

/-- C5: `IsPositive()` is the conjunction of positive mass with the
three leading-minor positivity tests, and `IsValid()` is `IsPositive()`
together with `ValidMoments` of the principal moments at the default
tolerance. -/
theorem C5_validity_predicates (s : MassMatrix3) :
    (IsPositive s ↔
      (0 < s.mass ∧ 0 < s.Ixxyyzz.x ∧
       0 < s.Ixxyyzz.x * s.Ixxyyzz.y - s.Ixyxzyz.x ^ 2 ∧
       0 < Matrix3.det (MOI s))) ∧
    (IsValid s ↔
      (IsPositive s ∧ ValidMoments (PrincipalMoments s 1e-6))) :=
  ⟨Iff.rfl, Iff.rfl⟩

/-- C6: every setter stores its argument unconditionally, leaves the
other fields unchanged, and returns `IsValid()` of the post-mutation
state. -/
theorem C6_setters (s : MassMatrix3) (v : ℝ) (u : Vector3) (m : Matrix3)
    (ixx iyy izz ixy ixz iyz : ℝ) :
    ((MassSet s v).1 = ⟨v, s.Ixxyyzz, s.Ixyxzyz⟩ ∧
      ((MassSet s v).2 ↔ IsValid (MassSet s v).1)) ∧
    ((IXXSet s v).1 = ⟨s.mass, ⟨v, s.Ixxyyzz.y, s.Ixxyyzz.z⟩, s.Ixyxzyz⟩ ∧
      ((IXXSet s v).2 ↔ IsValid (IXXSet s v).1)) ∧
    ((IYYSet s v).1 = ⟨s.mass, ⟨s.Ixxyyzz.x, v, s.Ixxyyzz.z⟩, s.Ixyxzyz⟩ ∧
      ((IYYSet s v).2 ↔ IsValid (IYYSet s v).1)) ∧
    ((IZZSet s v).1 = ⟨s.mass, ⟨s.Ixxyyzz.x, s.Ixxyyzz.y, v⟩, s.Ixyxzyz⟩ ∧
      ((IZZSet s v).2 ↔ IsValid (IZZSet s v).1)) ∧
    ((IXYSet s v).1 = ⟨s.mass, s.Ixxyyzz, ⟨v, s.Ixyxzyz.y, s.Ixyxzyz.z⟩⟩ ∧
      ((IXYSet s v).2 ↔ IsValid (IXYSet s v).1)) ∧
    ((IXZSet s v).1 = ⟨s.mass, s.Ixxyyzz, ⟨s.Ixyxzyz.x, v, s.Ixyxzyz.z⟩⟩ ∧
      ((IXZSet s v).2 ↔ IsValid (IXZSet s v).1)) ∧
    ((IYZSet s v).1 = ⟨s.mass, s.Ixxyyzz, ⟨s.Ixyxzyz.x, s.Ixyxzyz.y, v⟩⟩ ∧
      ((IYZSet s v).2 ↔ IsValid (IYZSet s v).1)) ∧
    ((DiagonalMomentsSet s u).1 = ⟨s.mass, u, s.Ixyxzyz⟩ ∧
      ((DiagonalMomentsSet s u).2 ↔ IsValid (DiagonalMomentsSet s u).1)) ∧
    ((OffDiagonalMomentsSet s u).1 = ⟨s.mass, s.Ixxyyzz, u⟩ ∧
      ((OffDiagonalMomentsSet s u).2 ↔
        IsValid (OffDiagonalMomentsSet s u).1)) ∧
    ((InertiaMatrixSet s ixx iyy izz ixy ixz iyz).1 =
        ⟨s.mass, ⟨ixx, iyy, izz⟩, ⟨ixy, ixz, iyz⟩⟩ ∧
      ((InertiaMatrixSet s ixx iyy izz ixy ixz iyz).2 ↔
        IsValid (InertiaMatrixSet s ixx iyy izz ixy ixz iyz).1)) ∧
    ((MOISet s m).1 =
        ⟨s.mass, ⟨m.m00, m.m11, m.m22⟩,
         ⟨0.5 * (m.m01 + m.m10), 0.5 * (m.m02 + m.m20),
          0.5 * (m.m12 + m.m21)⟩⟩ ∧
      ((MOISet s m).2 ↔ IsValid (MOISet s m).1)) :=
  ⟨⟨rfl, Iff.rfl⟩, ⟨rfl, Iff.rfl⟩, ⟨rfl, Iff.rfl⟩, ⟨rfl, Iff.rfl⟩,
   ⟨rfl, Iff.rfl⟩, ⟨rfl, Iff.rfl⟩, ⟨rfl, Iff.rfl⟩, ⟨rfl, Iff.rfl⟩,
   ⟨rfl, Iff.rfl⟩, ⟨rfl, Iff.rfl⟩, ⟨rfl, Iff.rfl⟩⟩

/-- C7: storing the matrix built by the MOI getter back through the MOI
setter reproduces the original state exactly (the symmetrization
averages two equal values), hence within any tolerance. -/
theorem C7_moi_roundtrip (s : MassMatrix3) : (MOISet s (MOI s)).1 = s := by
  cases s with
  | mk m dv ov =>
    cases dv with
    | mk dx dy dz =>
      cases ov with
      | mk ox oy oz =>
        have h1 : 0.5 * (ox + ox) = ox := by ring
        have h2 : 0.5 * (oy + oy) = oy := by ring
        have h3 : 0.5 * (oz + oz) = oz := by ring
        simp [MOISet, MOI, h1, h2, h3]

/-- C8: `operator==` holds iff the masses are within the default
tolerance 1e-6 and the two moment vectors agree componentwise exactly;
`operator!=` is its negation. -/
theorem C8_equality (a b : MassMatrix3) :
    (eqOp a b ↔
      (|a.mass - b.mass| ≤ 1e-6 ∧
       a.Ixxyyzz.x = b.Ixxyyzz.x ∧ a.Ixxyyzz.y = b.Ixxyyzz.y ∧
       a.Ixxyyzz.z = b.Ixxyyzz.z ∧
       a.Ixyxzyz.x = b.Ixyxzyz.x ∧ a.Ixyxzyz.y = b.Ixyxzyz.y ∧
       a.Ixyxzyz.z = b.Ixyxzyz.z)) ∧
    (neqOp a b ↔ ¬ eqOp a b) := by
  constructor
  · cases a with
    | mk am ad ao =>
      cases b with
      | mk bm bd bo =>
        cases ad; cases bd; cases ao; cases bo
        simp only [eqOp, equalTol, Vector3.mk.injEq]
        tauto
  · exact Iff.rfl

/-- C2 (amended): for every state with `IsValid()`, `PrincipalMoments()`
at the default tolerance returns three positive values satisfying the
triangle inequality; they are sorted ascending whenever the matrix is
not already diagonal, and on the diagonal fast path they are the stored
diagonal in its original order. -/
theorem C2_valid_moments (s : MassMatrix3) (h : IsValid s) :
    ((PrincipalMoments s 1e-6).x > 0 ∧ (PrincipalMoments s 1e-6).y > 0 ∧
     (PrincipalMoments s 1e-6).z > 0) ∧
    ((PrincipalMoments s 1e-6).x + (PrincipalMoments s 1e-6).y >
        (PrincipalMoments s 1e-6).z ∧
     (PrincipalMoments s 1e-6).y + (PrincipalMoments s 1e-6).z >
        (PrincipalMoments s 1e-6).x ∧
     (PrincipalMoments s 1e-6).z + (PrincipalMoments s 1e-6).x >
        (PrincipalMoments s 1e-6).y) ∧
    (¬ Vector3.Equal s.Ixyxzyz Vector3.zero (scaledTol s 1e-6) →
      (PrincipalMoments s 1e-6).x ≤ (PrincipalMoments s 1e-6).y ∧
      (PrincipalMoments s 1e-6).y ≤ (PrincipalMoments s 1e-6).z) ∧
    (Vector3.Equal s.Ixyxzyz Vector3.zero (scaledTol s 1e-6) →
      PrincipalMoments s 1e-6 = s.Ixxyyzz) := by
  obtain ⟨_, hvm⟩ := h
  refine ⟨⟨hvm.1, hvm.2.1, hvm.2.2.1⟩,
    ⟨hvm.2.2.2.1, hvm.2.2.2.2.1, hvm.2.2.2.2.2⟩, ?_,
    fun hd => pm_diag s _ hd⟩
  intro hnd
  rw [pm_noDiag s _ hnd]
  exact cubicRoots_sorted _ _ _ _

/-- Witness for C2 at mass 1, diagonal (2, 2, 2), zero off-diagonal. -/
theorem C2_valid_moments_witness :
    IsValid ⟨1, ⟨2, 2, 2⟩, ⟨0, 0, 0⟩⟩ ∧
    (((PrincipalMoments ⟨1, ⟨2, 2, 2⟩, ⟨0, 0, 0⟩⟩ 1e-6).x > 0 ∧
      (PrincipalMoments ⟨1, ⟨2, 2, 2⟩, ⟨0, 0, 0⟩⟩ 1e-6).y > 0 ∧
      (PrincipalMoments ⟨1, ⟨2, 2, 2⟩, ⟨0, 0, 0⟩⟩ 1e-6).z > 0) ∧
     ((PrincipalMoments ⟨1, ⟨2, 2, 2⟩, ⟨0, 0, 0⟩⟩ 1e-6).x +
         (PrincipalMoments ⟨1, ⟨2, 2, 2⟩, ⟨0, 0, 0⟩⟩ 1e-6).y >
        (PrincipalMoments ⟨1, ⟨2, 2, 2⟩, ⟨0, 0, 0⟩⟩ 1e-6).z ∧
      (PrincipalMoments ⟨1, ⟨2, 2, 2⟩, ⟨0, 0, 0⟩⟩ 1e-6).y +
         (PrincipalMoments ⟨1, ⟨2, 2, 2⟩, ⟨0, 0, 0⟩⟩ 1e-6).z >
        (PrincipalMoments ⟨1, ⟨2, 2, 2⟩, ⟨0, 0, 0⟩⟩ 1e-6).x ∧
      (PrincipalMoments ⟨1, ⟨2, 2, 2⟩, ⟨0, 0, 0⟩⟩ 1e-6).z +
         (PrincipalMoments ⟨1, ⟨2, 2, 2⟩, ⟨0, 0, 0⟩⟩ 1e-6).x >
        (PrincipalMoments ⟨1, ⟨2, 2, 2⟩, ⟨0, 0, 0⟩⟩ 1e-6).y) ∧
     (¬ Vector3.Equal (⟨1, ⟨2, 2, 2⟩, ⟨0, 0, 0⟩⟩ : MassMatrix3).Ixyxzyz
          Vector3.zero (scaledTol ⟨1, ⟨2, 2, 2⟩, ⟨0, 0, 0⟩⟩ 1e-6) →
       (PrincipalMoments ⟨1, ⟨2, 2, 2⟩, ⟨0, 0, 0⟩⟩ 1e-6).x ≤
         (PrincipalMoments ⟨1, ⟨2, 2, 2⟩, ⟨0, 0, 0⟩⟩ 1e-6).y ∧
       (PrincipalMoments ⟨1, ⟨2, 2, 2⟩, ⟨0, 0, 0⟩⟩ 1e-6).y ≤
         (PrincipalMoments ⟨1, ⟨2, 2, 2⟩, ⟨0, 0, 0⟩⟩ 1e-6).z) ∧
     (Vector3.Equal (⟨1, ⟨2, 2, 2⟩, ⟨0, 0, 0⟩⟩ : MassMatrix3).Ixyxzyz
          Vector3.zero (scaledTol ⟨1, ⟨2, 2, 2⟩, ⟨0, 0, 0⟩⟩ 1e-6) →
       PrincipalMoments ⟨1, ⟨2, 2, 2⟩, ⟨0, 0, 0⟩⟩ 1e-6 =
         (⟨1, ⟨2, 2, 2⟩, ⟨0, 0, 0⟩⟩ : MassMatrix3).Ixxyyzz)) := by
  have hd : Vector3.Equal (⟨1, ⟨2, 2, 2⟩, ⟨0, 0, 0⟩⟩ : MassMatrix3).Ixyxzyz
      Vector3.zero (scaledTol ⟨1, ⟨2, 2, 2⟩, ⟨0, 0, 0⟩⟩ 1e-6) := by
    norm_num [Vector3.Equal, Vector3.zero, scaledTol, Vector3.Max, max_def]
  have hv : IsValid ⟨1, ⟨2, 2, 2⟩, ⟨0, 0, 0⟩⟩ := by
    constructor
    · norm_num [IsPositive, IXX, IYY, IXY, Matrix3.det, MOI]
    · rw [pm_diag _ _ hd]
      norm_num [ValidMoments]
  exact ⟨hv, C2_valid_moments _ hv⟩

/-- C2 counterexample: the state with mass 1, diagonal (3, 2.5, 2) and
zero off-diagonal is valid, yet `PrincipalMoments()` returns the
diagonal verbatim, which is not sorted ascending. -/
theorem C2_counterexample :
    IsValid ⟨1, ⟨3, 2.5, 2⟩, ⟨0, 0, 0⟩⟩ ∧
    ¬ ((PrincipalMoments ⟨1, ⟨3, 2.5, 2⟩, ⟨0, 0, 0⟩⟩ 1e-6).x ≤
       (PrincipalMoments ⟨1, ⟨3, 2.5, 2⟩, ⟨0, 0, 0⟩⟩ 1e-6).y) := by
  have hd : Vector3.Equal (⟨1, ⟨3, 2.5, 2⟩, ⟨0, 0, 0⟩⟩ : MassMatrix3).Ixyxzyz
      Vector3.zero (scaledTol ⟨1, ⟨3, 2.5, 2⟩, ⟨0, 0, 0⟩⟩ 1e-6) := by
    norm_num [Vector3.Equal, Vector3.zero, scaledTol, Vector3.Max, max_def]
  have hpm := pm_diag _ 1e-6 hd
  refine ⟨⟨?_, ?_⟩, ?_⟩
  · norm_num [IsPositive, IXX, IYY, IXY, Matrix3.det, MOI]
  · rw [hpm]
    norm_num [ValidMoments]
  · rw [hpm]
    norm_num

/-- C4 (amended): on the non-diagonal path, `PrincipalMoments(tol)`
computes b = trace, c = sum of 2x2 principal minors, d = the negation
of det(MOI()), p = b^2 - 3c; if p < scaledTol^2 the result is
(b/3, b/3, b/3), otherwise the roots
(b + 2*sqrt(p)*cos((delta + k*2*pi)/3))/3 for k in 0, 1, -1 with
delta = acos of the clamped argument q/(2*p^1.5), sorted ascending. -/
theorem C4_cubic_formula (s : MassMatrix3) (t : ℝ)
    (h : ¬ Vector3.Equal s.Ixyxzyz Vector3.zero (scaledTol s t)) :
    PrincipalMoments s t = PrincipalMomentsAmendedC4 s t := by
  rw [pm_noDiag s t h, PrincipalMomentsAmendedC4, cubicRootsSpec_eq]
  have hb : traceMOI s = s.Ixxyyzz.Sum := by
    simp [traceMOI, MOI, Vector3.Sum]
  have hc : minorsMOI s =
      s.Ixxyyzz.x * s.Ixxyyzz.y - s.Ixyxzyz.x ^ 2
        + s.Ixxyyzz.x * s.Ixxyyzz.z - s.Ixyxzyz.y ^ 2
        + s.Ixxyyzz.y * s.Ixxyyzz.z - s.Ixyxzyz.z ^ 2 := by
    simp only [minorsMOI, MOI]
    ring
  have hd : -(Matrix3.det (MOI s)) =
      s.Ixxyyzz.x * s.Ixyxzyz.z ^ 2 + s.Ixxyyzz.y * s.Ixyxzyz.y ^ 2
        + s.Ixxyyzz.z * s.Ixyxzyz.x ^ 2
        - s.Ixxyyzz.x * s.Ixxyyzz.y * s.Ixxyyzz.z
        - 2 * s.Ixyxzyz.x * s.Ixyxzyz.y * s.Ixyxzyz.z := by
    simp only [Matrix3.det, MOI]
    ring
  rw [hb, hc, hd]

/-- Witness for C4 at mass 1, diagonal (1, 1, 1), off-diagonal
(0.5, 0, 0). -/
theorem C4_cubic_formula_witness :
    ¬ Vector3.Equal (⟨1, ⟨1, 1, 1⟩, ⟨0.5, 0, 0⟩⟩ : MassMatrix3).Ixyxzyz
        Vector3.zero (scaledTol ⟨1, ⟨1, 1, 1⟩, ⟨0.5, 0, 0⟩⟩ 1e-6) ∧
    PrincipalMoments ⟨1, ⟨1, 1, 1⟩, ⟨0.5, 0, 0⟩⟩ 1e-6 =
      PrincipalMomentsAmendedC4 ⟨1, ⟨1, 1, 1⟩, ⟨0.5, 0, 0⟩⟩ 1e-6 := by
  have h : ¬ Vector3.Equal (⟨1, ⟨1, 1, 1⟩, ⟨0.5, 0, 0⟩⟩ : MassMatrix3).Ixyxzyz
      Vector3.zero (scaledTol ⟨1, ⟨1, 1, 1⟩, ⟨0.5, 0, 0⟩⟩ 1e-6) := by
    norm_num [Vector3.Equal, Vector3.zero, scaledTol, Vector3.Max, max_def,
      abs_le]
  exact ⟨h, C4_cubic_formula _ _ h⟩

/-- C4 counterexample: at mass 1, diagonal (-1, -2, -3), zero
off-diagonal, the scaled tolerance is negative so the non-diagonal path
is taken, and the claim's formula with d = det(MOI()) disagrees with
`PrincipalMoments()` (the code uses d = -det(MOI())). -/
theorem C4_counterexample :
    ¬ Vector3.Equal (⟨1, ⟨-1, -2, -3⟩, ⟨0, 0, 0⟩⟩ : MassMatrix3).Ixyxzyz
        Vector3.zero (scaledTol ⟨1, ⟨-1, -2, -3⟩, ⟨0, 0, 0⟩⟩ 1e-6) ∧
    PrincipalMoments ⟨1, ⟨-1, -2, -3⟩, ⟨0, 0, 0⟩⟩ 1e-6 ≠
      PrincipalMomentsClaimC4 ⟨1, ⟨-1, -2, -3⟩, ⟨0, 0, 0⟩⟩ 1e-6 := by
  have hfast : ¬ Vector3.Equal
      (⟨1, ⟨-1, -2, -3⟩, ⟨0, 0, 0⟩⟩ : MassMatrix3).Ixyxzyz
      Vector3.zero (scaledTol ⟨1, ⟨-1, -2, -3⟩, ⟨0, 0, 0⟩⟩ 1e-6) := by
    norm_num [Vector3.Equal, Vector3.zero, scaledTol, Vector3.Max, max_def]
  refine ⟨hfast, ?_⟩
  have hpm : PrincipalMoments ⟨1, ⟨-1, -2, -3⟩, ⟨0, 0, 0⟩⟩ 1e-6
      = cubicRoots (-6) 11 6 (-(1e-6)) := by
    rw [pm_noDiag _ _ hfast]
    norm_num [Vector3.Sum, scaledTol, Vector3.Max, max_def]
  have hclaim : PrincipalMomentsClaimC4 ⟨1, ⟨-1, -2, -3⟩, ⟨0, 0, 0⟩⟩ 1e-6
      = cubicRootsSpec (-6) 11 (-6) (-(1e-6)) := by
    unfold PrincipalMomentsClaimC4
    norm_num [traceMOI, minorsMOI, MOI, Matrix3.det, scaledTol, Vector3.Max,
      max_def]
  rw [hpm, hclaim, cubicRoots_eval_neg, cubicRootsSpec_eval_neg]
  intro hcontra
  rw [Vector3.mk.injEq] at hcontra
  have h2 := hcontra.2.1
  have h3 := Real.sqrt_pos.mpr (show (0:ℝ) < 3 by norm_num)
  linarith

/-- C9: in the no-repeated-moments branch, when both auxiliary
2-vectors f1 and f2 have squared length below the squared scaled
tolerance simultaneously, `PrincipalAxesOffset` returns the zero
quaternion (0,0,0,0), a non-unit sentinel; in every other branch it
returns the identity or a quaternion built from angles
(-phi1, -phi2, -phi3) and inverted, possibly composed with a 90-degree
pitch rotation. -/
theorem C9_zero_sentinel (s : MassMatrix3) (t : ℝ) :
    (sentinelCond s t →
      PrincipalAxesOffset s t = ⟨0, 0, 0, 0⟩ ∧
      Quaternion.normSq (PrincipalAxesOffset s t) = 0) ∧
    (¬ sentinelCond s t →
      PrincipalAxesOffset s t = Quaternion.identity ∨
      ∃ a b c : ℝ,
        PrincipalAxesOffset s t =
          (Quaternion.fromEuler (-a) (-b) (-c)).inverse ∨
        PrincipalAxesOffset s t =
          (Quaternion.fromEuler (-a) (-b) (-c)).inverse *
            Quaternion.fromEuler 0 (Real.pi / 2) 0) := by
  by_cases hA : alignedCond s t
  · have hP : PrincipalAxesOffset s t = Quaternion.identity := by
      simp only [PrincipalAxesOffset]
      rw [if_pos hA]
    exact ⟨fun hs => (hs.1 hA).elim, fun _ => Or.inl hP⟩
  · by_cases h1 : equalTol ((PrincipalAxesOffsetMoments s t).x -
        (PrincipalAxesOffsetMoments s t).y) 0 (scaledTol s t)
    · have hP : PrincipalAxesOffset s t = pao_repeated s
          (PrincipalAxesOffsetMoments s t) (scaledTol s t) 2 := by
        simp only [PrincipalAxesOffset]
        rw [if_neg hA, if_pos h1, if_pos (show (0:ℤ) ≤ 2 by norm_num)]
      refine ⟨fun hs => (hs.2.1 h1).elim, fun _ => Or.inr ?_⟩
      rw [hP]
      simp only [pao_repeated]
      rw [if_neg (show ¬(2:ℤ) = 0 by norm_num)]
      exact ⟨_, _, _, Or.inl rfl⟩
    · by_cases h2 : equalTol ((PrincipalAxesOffsetMoments s t).y -
          (PrincipalAxesOffsetMoments s t).z) 0 (scaledTol s t)
      · have hP : PrincipalAxesOffset s t = pao_repeated s
            (PrincipalAxesOffsetMoments s t) (scaledTol s t) 0 := by
          simp only [PrincipalAxesOffset]
          rw [if_neg hA, if_neg h1, if_pos h2,
            if_pos (show (0:ℤ) ≤ 0 by norm_num)]
        refine ⟨fun hs => (hs.2.2.1 h2).elim, fun _ => Or.inr ?_⟩
        rw [hP]
        simp only [pao_repeated, if_true]
        exact ⟨_, _, _, Or.inr rfl⟩
      · have hP : PrincipalAxesOffset s t = pao_general s
            (PrincipalAxesOffsetMoments s t) (scaledTol s t) := by
          simp only [PrincipalAxesOffset]
          rw [if_neg hA, if_neg h1, if_neg h2,
            if_neg (show ¬(0:ℤ) ≤ -1 by norm_num)]
        by_cases hf : (f1 s).SquaredLength < scaledTol s t ^ 2 ∧
            (f2 s).SquaredLength < scaledTol s t ^ 2
        · have hz : PrincipalAxesOffset s t = ⟨0, 0, 0, 0⟩ := by
            rw [hP]
            simp only [pao_general]
            rw [if_pos hf]
          refine ⟨fun _ => ⟨hz, by rw [hz]; norm_num [Quaternion.normSq]⟩,
            fun hns => (hns ⟨hA, h1, h2, hf.1, hf.2⟩).elim⟩
        · refine ⟨fun hs => (hf ⟨hs.2.2.2.1, hs.2.2.2.2⟩).elim,
            fun _ => Or.inr ?_⟩
          rw [hP]
          simp only [pao_general]
          rw [if_neg hf]
          by_cases hf1 : (f1 s).SquaredLength < scaledTol s t ^ 2
          · rw [if_pos hf1]
            exact ⟨_, _, _, Or.inl rfl⟩
          · rw [if_neg hf1]
            by_cases hf2 : (f2 s).SquaredLength < scaledTol s t ^ 2
            · rw [if_pos hf2]
              exact ⟨_, _, _, Or.inl rfl⟩
            · rw [if_neg hf2]
              exact ⟨_, _, _, Or.inl rfl⟩

/-- Witness for C9: with a negative tolerance argument the scaled
tolerance is negative, every tolerance-equality test fails, both
auxiliary vectors test as small, and the zero-quaternion sentinel is
returned. -/
theorem C9_zero_sentinel_witness :
    sentinelCond ⟨1, ⟨1, 2, 3⟩, ⟨0.1, 0, 0⟩⟩ (-1) ∧
    PrincipalAxesOffset ⟨1, ⟨1, 2, 3⟩, ⟨0.1, 0, 0⟩⟩ (-1) = ⟨0, 0, 0, 0⟩ := by
  have htol : scaledTol ⟨1, ⟨1, 2, 3⟩, ⟨0.1, 0, 0⟩⟩ (-1) = -3 := by
    norm_num [scaledTol, Vector3.Max, max_def]
  have hs : sentinelCond ⟨1, ⟨1, 2, 3⟩, ⟨0.1, 0, 0⟩⟩ (-1) := by
    refine ⟨?_, ?_, ?_, ?_, ?_⟩
    · intro hAl
      unfold alignedCond Vector3.Equal at hAl
      rw [htol] at hAl
      have hcon := (abs_nonneg _).trans hAl.1
      norm_num at hcon
    · intro hq
      unfold equalTol at hq
      rw [htol] at hq
      have hcon := (abs_nonneg _).trans hq
      norm_num at hcon
    · intro hq
      unfold equalTol at hq
      rw [htol] at hq
      have hcon := (abs_nonneg _).trans hq
      norm_num at hcon
    · rw [htol]
      norm_num [f1, Vector2.SquaredLength]
    · rw [htol]
      norm_num [f2, Vector2.SquaredLength]
  exact ⟨hs, ((C9_zero_sentinel _ _).1 hs).1⟩

/-- C10: `PrincipalAxesOffset(_tol)` computes its principal moments by
calling `PrincipalMoments()` at the default tolerance 1e-6, so the
moments it uses are independent of the `_tol` argument. -/
theorem C10_moments_default_tol (s : MassMatrix3) (t u : ℝ) :
    PrincipalAxesOffsetMoments s t = PrincipalMoments s 1e-6 ∧
    PrincipalAxesOffsetMoments s t = PrincipalAxesOffsetMoments s u :=
  ⟨rfl, rfl⟩

end IgnMath
